import Mathlib

/-!
# Fleet Dashboard API — verification of the natural-language spec

Shallow embedding of `backend/app.py` (the single source file of the
repository): a Flask service exposing a hardcoded 12-row fleet dataset
through four routes.  Pandas operations are embedded by their documented
semantics on this data: `DataFrame` becomes `List Record`,
`groupby('fleet_id')` groups by key with keys sorted ascending (pandas
default `sort=True`), `mean` is the exact rational mean, `.round(1)` is
numpy round-half-to-even at one decimal (all intermediate values of this
dataset are exactly representable dyadic rationals, so the rational model
matches the float computation), `to_dict(orient='records')` is the
identity on the row list, and `jsonify` produces a JSON body paired with
an HTTP status code.
-/

/-- One row of the fleet table: the five columns of the `data` dict in
`get_fleet_data`. -/
structure Record where
  fleet_id : String
  month : String
  availability : ℕ
  missions_completed : ℕ
  maintenance_hours : ℕ
deriving DecidableEq

/-- Column `'fleet_id'` of the `data` dict literal. -/
def fleet_id_column : List String :=
  ["F-18", "F-18", "F-18", "F-18",
   "CH-147", "CH-147", "CH-147", "CH-147",
   "CP-140", "CP-140", "CP-140", "CP-140"]

/-- Column `'month'`: `['Jan', 'Feb', 'Mar', 'Apr'] * 3`. -/
def month_column : List String :=
  ["Jan", "Feb", "Mar", "Apr"] ++ ["Jan", "Feb", "Mar", "Apr"] ++
    ["Jan", "Feb", "Mar", "Apr"]

/-- Column `'availability'`. -/
def availability_column : List ℕ :=
  [85, 87, 82, 88, 72, 75, 78, 80, 90, 88, 92, 91]

/-- Column `'missions_completed'`. -/
def missions_completed_column : List ℕ :=
  [45, 52, 38, 55, 28, 32, 35, 40, 62, 58, 65, 63]

/-- Column `'maintenance_hours'`. -/
def maintenance_hours_column : List ℕ :=
  [320, 280, 360, 250, 450, 420, 380, 350, 180, 210, 160, 175]

/-- `get_fleet_data()`: builds the DataFrame from the column dict.  Rows
are the positional zip of the five column lists. -/
def get_fleet_data : List Record :=
  List.zipWith
    (fun (fm : String × String) (amh : ℕ × ℕ × ℕ) =>
      Record.mk fm.1 fm.2 amh.1 amh.2.1 amh.2.2)
    (fleet_id_column.zip month_column)
    (availability_column.zip (missions_completed_column.zip maintenance_hours_column))

/-- Round a rational to the nearest integer, ties to even: the rounding
numpy (hence pandas `.round`) uses. -/
def roundHalfToEven (q : ℚ) : ℤ :=
  if q - q.floor < 1 / 2 then q.floor
  else if q - q.floor > 1 / 2 then q.floor + 1
  else if q.floor % 2 = 0 then q.floor else q.floor + 1

/-- Pandas `.round(1)` on a numeric value: round half to even at the
first decimal. -/
def round1HalfToEven (q : ℚ) : ℚ := (roundHalfToEven (10 * q) : ℚ) / 10

/-- Round a rational to the nearest integer, ties upward (round-half-up,
`⌊q + 1/2⌋`), the alternative mode the spec discusses. -/
def roundHalfUp (q : ℚ) : ℤ := (q + 1 / 2).floor

/-- Round-half-up at the first decimal. -/
def round1HalfUp (q : ℚ) : ℚ := (roundHalfUp (10 * q) : ℚ) / 10

/-- Distinct values of a key column (each `fleet_id` kept once). -/
def distinctKeys : List String → List String
  | [] => []
  | x :: xs => if x ∈ distinctKeys xs then distinctKeys xs else x :: distinctKeys xs

/-- Lexicographic ≤ on code-point sequences, the order Python compares
strings by (hence the order pandas sorts group keys in). -/
def leChars : List Char → List Char → Bool
  | [], _ => true
  | _ :: _, [] => false
  | a :: as, b :: bs =>
    if a.toNat < b.toNat then true
    else if b.toNat < a.toNat then false
    else leChars as bs

/-- Lexicographic ≤ on strings by code point. -/
def leKey (s t : String) : Bool := leChars s.data t.data

/-- Insert a key into a `leKey`-sorted list of keys. -/
def insertSorted (s : String) : List String → List String
  | [] => [s]
  | x :: xs => if leKey s x then s :: x :: xs else x :: insertSorted s xs

/-- Insertion sort on keys (lexicographic ascending, as pandas sorts
group keys). -/
def sortKeys : List String → List String
  | [] => []
  | x :: xs => insertSorted x (sortKeys xs)

/-- The group keys of `df.groupby('fleet_id')`: distinct `fleet_id`
values, sorted ascending (pandas default `sort=True`). -/
def groupKeys (df : List Record) : List String :=
  sortKeys (distinctKeys (df.map Record.fleet_id))

/-- The rows of one group: all rows of `df` whose `fleet_id` is the key. -/
def rowsFor (df : List Record) (fid : String) : List Record :=
  df.filter (fun r => r.fleet_id == fid)

/-- `'availability': 'mean'` — exact rational mean of the availability
column of a group. -/
def meanAvailability (rows : List Record) : ℚ :=
  (rows.map (fun r => (r.availability : ℚ))).sum / rows.length

/-- One row of the `/api/fleet-summary` output, after the
`summary.columns = [...]` rename. -/
structure Summary where
  fleet_id : String
  avg_availability : ℚ
  total_missions : ℕ
  total_maintenance_hours : ℕ
deriving DecidableEq

/-- The aggregate row for one group key: mean availability rounded to
one decimal (half-to-even), summed missions, summed maintenance hours.
`.round(1)` also hits the two sum columns but is the identity on
integers. -/
def summarizeFleet (df : List Record) (fid : String) : Summary :=
  { fleet_id := fid
    avg_availability := round1HalfToEven (meanAvailability (rowsFor df fid))
    total_missions := ((rowsFor df fid).map Record.missions_completed).sum
    total_maintenance_hours := ((rowsFor df fid).map Record.maintenance_hours).sum }

/-- The groupby–agg–round–reset_index–rename pipeline of
`get_fleet_summary`, as a function of the dataset. -/
def summarize (df : List Record) : List Summary :=
  (groupKeys df).map (summarizeFleet df)

/-- A JSON body produced by one of the four handlers. -/
inductive JsonBody where
  | statusMessage (status message : String)
  | records (rows : List Record)
  | summaries (rows : List Summary)
  | errorMessage (msg : String)
deriving DecidableEq

/-- An HTTP response: status code and JSON body (`jsonify` returns 200
unless a status is given explicitly). -/
structure HttpResponse where
  status : ℕ
  body : JsonBody
deriving DecidableEq

/-- Route `/`: the health check `home()`. -/
def home : HttpResponse :=
  ⟨200, JsonBody.statusMessage "online" "Fleet Dashboard API"⟩

/-- Route `/api/fleet-data`: `get_all_fleet_data()` returns
`df.to_dict(orient='records')` — the dataset rows unchanged. -/
def get_all_fleet_data : HttpResponse :=
  ⟨200, JsonBody.records get_fleet_data⟩

/-- Route `/api/fleet-summary`: `get_fleet_summary()`. -/
def get_fleet_summary : HttpResponse :=
  ⟨200, JsonBody.summaries (summarize get_fleet_data)⟩

/-- Route `/api/fleet/<fleet_id>`: `get_single_fleet(fleet_id)` filters
on string equality and 404s when the filtered frame is empty. -/
def get_single_fleet (fleet_id : String) : HttpResponse :=
  let df := get_fleet_data
  let fleet_df := df.filter (fun r => r.fleet_id == fleet_id)
  if fleet_df.isEmpty then ⟨404, JsonBody.errorMessage "Fleet not found"⟩
  else ⟨200, JsonBody.records fleet_df⟩

/-- A request to one of the four routes. -/
inductive Request where
  | root
  | fleetData
  | fleetSummary
  | fleet (fleet_id : String)
deriving DecidableEq

/-- Route dispatch: the app holds no mutable state, so a handler is a
pure function of the request alone. -/
def handle : Request → HttpResponse
  | Request.root => home
  | Request.fleetData => get_all_fleet_data
  | Request.fleetSummary => get_fleet_summary
  | Request.fleet fid => get_single_fleet fid

/-- Serving a sequence of requests: each is handled independently. -/
def serve (reqs : List Request) : List HttpResponse := reqs.map handle

/-- First-appearance order of the distinct `fleet_id` values, the output
order the spec suggests and pandas does not use. -/
def firstAppearanceKeys (df : List Record) : List String :=
  (df.map Record.fleet_id).foldl (fun acc k => if k ∈ acc then acc else acc ++ [k]) []

/-!  ## Claim theorems  -/

unseal Rat.add Rat.mul Rat.inv Rat.sub in
/-- C1: the summary of the literal dataset has exactly 3 rows, and its
row for fleet_id "F-18" has avg_availability 85.5, total_missions 190,
total_maintenance_hours 1210. -/
theorem c1_summary_of_literal_dataset :
    (summarize get_fleet_data).length = 3 ∧
    (summarize get_fleet_data).filter (fun s => s.fleet_id == "F-18") =
      [⟨"F-18", (171 : ℚ) / 2, 190, 1210⟩] := by
  decide

/-- C4: the full-dataset listing returns exactly 12 records, the distinct
fleet_ids are exactly F-18, CH-147, CP-140, and each occurs in 4 rows. -/
theorem c4_fleet_data_counts :
    get_all_fleet_data = ⟨200, JsonBody.records get_fleet_data⟩ ∧
    get_fleet_data.length = 12 ∧
    distinctKeys (get_fleet_data.map Record.fleet_id) = ["F-18", "CH-147", "CP-140"] ∧
    (get_fleet_data.filter (fun r => r.fleet_id == "F-18")).length = 4 ∧
    (get_fleet_data.filter (fun r => r.fleet_id == "CH-147")).length = 4 ∧
    (get_fleet_data.filter (fun r => r.fleet_id == "CP-140")).length = 4 := by
  decide

/-- C5: the list-all route is the identity on the dataset — status 200
and body exactly the dataset rows, unchanged and in order. -/
theorem c5_list_all_identity :
    get_all_fleet_data.status = 200 ∧
    get_all_fleet_data.body = JsonBody.records get_fleet_data :=
  ⟨rfl, rfl⟩

/-- C9: every request to `/` yields status 200 with body
{"status":"online","message":"Fleet Dashboard API"}. -/
theorem c9_home_health_check :
    handle Request.root =
      ⟨200, JsonBody.statusMessage "online" "Fleet Dashboard API"⟩ :=
  rfl

unseal Rat.add Rat.mul Rat.inv Rat.sub in
/-- C10: the summary rows of the literal dataset appear in ascending
lexicographic fleet_id order CH-147, CP-140, F-18 — not in the
first-appearance order F-18, CH-147, CP-140 of the dataset. -/
theorem c10_summary_sorted_order :
    (summarize get_fleet_data).map Summary.fleet_id = ["CH-147", "CP-140", "F-18"] ∧
    firstAppearanceKeys get_fleet_data = ["F-18", "CH-147", "CP-140"] ∧
    ("CH-147" :: "CP-140" :: ["F-18"]) ≠ firstAppearanceKeys get_fleet_data := by
  decide

unseal Rat.add Rat.mul Rat.inv Rat.sub in
/-- C2 counterexample: fleet CH-147 appears in the dataset, yet its mean
availability (76.25) is an exact tie at the first decimal: half-to-even
rounds it to 76.2, half-up to 76.3, so the two modes disagree on this
dataset. -/
theorem c2_rounding_tie_counterexample :
    "CH-147" ∈ get_fleet_data.map Record.fleet_id ∧
    round1HalfToEven (meanAvailability (rowsFor get_fleet_data "CH-147")) ≠
      round1HalfUp (meanAvailability (rowsFor get_fleet_data "CH-147")) := by
  decide

unseal Rat.add Rat.mul Rat.inv Rat.sub in
/-- C2 amended: only fleet F-18's mean availability (85.5) rounds
unambiguously; the means of CH-147 (76.25) and CP-140 (90.25) are exact
ties at the first decimal, where half-to-even gives 76.2 and 90.2 while
half-up gives 76.3 and 90.3. -/
theorem c2_rounding_modes_on_literal_dataset :
    round1HalfToEven (meanAvailability (rowsFor get_fleet_data "F-18")) =
      round1HalfUp (meanAvailability (rowsFor get_fleet_data "F-18")) ∧
    round1HalfToEven (meanAvailability (rowsFor get_fleet_data "CH-147")) = (381 : ℚ) / 5 ∧
    round1HalfUp (meanAvailability (rowsFor get_fleet_data "CH-147")) = (763 : ℚ) / 10 ∧
    round1HalfToEven (meanAvailability (rowsFor get_fleet_data "CP-140")) = (451 : ℚ) / 5 ∧
    round1HalfUp (meanAvailability (rowsFor get_fleet_data "CP-140")) = (903 : ℚ) / 10 := by
  decide

/-!  ## Helper lemmas for the grouping pipeline  -/

theorem mem_distinctKeys {x : String} {l : List String} :
    x ∈ distinctKeys l ↔ x ∈ l := by
  induction l with
  | nil => simp [distinctKeys]
  | cons y ys ih =>
    by_cases h : y ∈ distinctKeys ys
    · rw [distinctKeys, if_pos h]
      simp only [List.mem_cons]
      constructor
      · intro hx
        exact Or.inr (ih.mp hx)
      · rintro (rfl | hx)
        · exact ih.mpr (ih.mp h)
        · exact ih.mpr hx
    · rw [distinctKeys, if_neg h]
      simp only [List.mem_cons, ih]

theorem nodup_distinctKeys (l : List String) : (distinctKeys l).Nodup := by
  induction l with
  | nil => simp [distinctKeys]
  | cons y ys ih =>
    by_cases h : y ∈ distinctKeys ys
    · rw [distinctKeys, if_pos h]
      exact ih
    · rw [distinctKeys, if_neg h]
      exact List.nodup_cons.mpr ⟨h, ih⟩

theorem mem_insertSorted {x s : String} {l : List String} :
    x ∈ insertSorted s l ↔ x = s ∨ x ∈ l := by
  induction l with
  | nil => simp [insertSorted]
  | cons y ys ih =>
    cases hsy : leKey s y with
    | true =>
      simp only [insertSorted, hsy, if_true, List.mem_cons]
    | false =>
      simp only [insertSorted, hsy, Bool.false_eq_true, if_false, List.mem_cons, ih]
      tauto

theorem nodup_insertSorted (s : String) (l : List String) (hs : s ∉ l) (hl : l.Nodup) :
    (insertSorted s l).Nodup := by
  revert hs hl
  induction l with
  | nil =>
    intro _ _
    simp [insertSorted]
  | cons y ys ih =>
    intro hs hl
    have hs' : s ≠ y ∧ s ∉ ys := by
      rw [List.mem_cons, not_or] at hs
      exact hs
    have hl' : y ∉ ys ∧ ys.Nodup := List.nodup_cons.mp hl
    cases hsy : leKey s y with
    | true =>
      simp only [insertSorted, hsy, if_true]
      exact List.nodup_cons.mpr ⟨by simp [hs'.1, hs'.2], hl⟩
    | false =>
      simp only [insertSorted, hsy, Bool.false_eq_true, if_false]
      refine List.nodup_cons.mpr ⟨fun hmem => ?_, ih hs'.2 hl'.2⟩
      rcases mem_insertSorted.mp hmem with rfl | hy
      · exact hs'.1 rfl
      · exact hl'.1 hy

theorem mem_sortKeys {x : String} {l : List String} : x ∈ sortKeys l ↔ x ∈ l := by
  induction l with
  | nil => simp [sortKeys]
  | cons y ys ih =>
    rw [sortKeys, mem_insertSorted, ih, List.mem_cons]

theorem nodup_sortKeys (l : List String) (h : l.Nodup) : (sortKeys l).Nodup := by
  revert h
  induction l with
  | nil =>
    intro _
    simp [sortKeys]
  | cons y ys ih =>
    intro h
    have h' := List.nodup_cons.mp h
    rw [sortKeys]
    exact nodup_insertSorted y (sortKeys ys)
      (fun hmem => h'.1 (mem_sortKeys.mp hmem)) (ih h'.2)

theorem mem_groupKeys {df : List Record} {fid : String} :
    fid ∈ groupKeys df ↔ fid ∈ df.map Record.fleet_id := by
  rw [groupKeys, mem_sortKeys, mem_distinctKeys]

theorem nodup_groupKeys (df : List Record) : (groupKeys df).Nodup :=
  nodup_sortKeys _ (nodup_distinctKeys _)

theorem summarize_map_fleet_id (df : List Record) :
    (summarize df).map Summary.fleet_id = groupKeys df := by
  rw [summarize, List.map_map]
  have hcomp : Summary.fleet_id ∘ summarizeFleet df = id := funext fun _ => rfl
  rw [hcomp, List.map_id]

/-!  ## Remaining claim theorems  -/

/-- C3: for every input, the single-fleet lookup answers 404 with body
{"error":"Fleet not found"} exactly when no dataset row's fleet_id equals
the input (character-for-character string equality), and otherwise
answers 200 with exactly the rows whose fleet_id equals the input. -/
theorem c3_find_by_id (fid : String) :
    (get_single_fleet fid = ⟨404, JsonBody.errorMessage "Fleet not found"⟩ ↔
      ∀ r ∈ get_fleet_data, r.fleet_id ≠ fid) ∧
    ((∃ r ∈ get_fleet_data, r.fleet_id = fid) →
      get_single_fleet fid =
        ⟨200, JsonBody.records (get_fleet_data.filter (fun r => r.fleet_id == fid))⟩) := by
  have hiff : (List.filter (fun r => r.fleet_id == fid) get_fleet_data).isEmpty = true ↔
      ∀ r ∈ get_fleet_data, r.fleet_id ≠ fid := by
    rw [List.isEmpty_iff, List.filter_eq_nil_iff]
    simp
  simp only [get_single_fleet]
  by_cases hemp : (List.filter (fun r => r.fleet_id == fid) get_fleet_data).isEmpty = true
  · rw [if_pos hemp]
    refine ⟨iff_of_true rfl (hiff.mp hemp), ?_⟩
    rintro ⟨r, hr, hfid⟩
    exact absurd hfid (hiff.mp hemp r hr)
  · rw [if_neg hemp]
    refine ⟨iff_of_false ?_ (fun hall => hemp (hiff.mpr hall)), fun _ => rfl⟩
    intro hcontr
    have h200 : (200 : ℕ) = 404 := congrArg HttpResponse.status hcontr
    exact absurd h200 (by decide)

theorem c3_find_by_id_witness :
    get_single_fleet "UNKNOWN" = ⟨404, JsonBody.errorMessage "Fleet not found"⟩ :=
  (c3_find_by_id "UNKNOWN").1.mpr (by decide)

/-- C6: for any dataset, a fleet_id appears (exactly once) among the
summary rows iff it appears in some dataset row, and a fleet_id absent
from the dataset has no summary row. -/
theorem c6_summary_keys (df : List Record) (fid : String) :
    (((summarize df).map Summary.fleet_id).count fid = 1 ↔
      fid ∈ df.map Record.fleet_id) ∧
    (fid ∉ df.map Record.fleet_id →
      ((summarize df).map Summary.fleet_id).count fid = 0) := by
  rw [summarize_map_fleet_id]
  refine ⟨⟨fun h => ?_, fun h => ?_⟩, fun h => ?_⟩
  · have hpos : 0 < (groupKeys df).count fid := by omega
    exact mem_groupKeys.mp (List.count_pos_iff.mp hpos)
  · exact List.count_eq_one_of_mem (nodup_groupKeys df) (mem_groupKeys.mpr h)
  · exact List.count_eq_zero.mpr (fun hmem => h (mem_groupKeys.mp hmem))

theorem c6_summary_keys_witness :
    ((summarize get_fleet_data).map Summary.fleet_id).count "F-18" = 1 :=
  (c6_summary_keys get_fleet_data "F-18").1.mpr (by decide)

/-- C7: the per-fleet aggregates are permutation-invariant — reordering
the dataset rows changes no fleet's mean availability (rounded), mission
total, or maintenance-hour total. -/
theorem c7_summarize_perm_invariant (df df' : List Record) (h : df.Perm df')
    (fid : String) : summarizeFleet df fid = summarizeFleet df' fid := by
  have hrows : (rowsFor df fid).Perm (rowsFor df' fid) := h.filter _
  have hsum : ((rowsFor df fid).map (fun r => (r.availability : ℚ))).sum =
      ((rowsFor df' fid).map (fun r => (r.availability : ℚ))).sum :=
    (hrows.map _).sum_eq
  have hlen : (rowsFor df fid).length = (rowsFor df' fid).length := hrows.length_eq
  have hm : ((rowsFor df fid).map Record.missions_completed).sum =
      ((rowsFor df' fid).map Record.missions_completed).sum := (hrows.map _).sum_eq
  have hh : ((rowsFor df fid).map Record.maintenance_hours).sum =
      ((rowsFor df' fid).map Record.maintenance_hours).sum := (hrows.map _).sum_eq
  unfold summarizeFleet meanAvailability
  rw [hsum, hlen, hm, hh]

theorem c7_summarize_perm_invariant_witness :
    summarizeFleet
      [Record.mk "F-18" "Jan" 85 45 320, Record.mk "F-18" "Feb" 87 52 280] "F-18" =
    summarizeFleet
      [Record.mk "F-18" "Feb" 87 52 280, Record.mk "F-18" "Jan" 85 45 320] "F-18" :=
  c7_summarize_perm_invariant _ _ (List.Perm.swap _ _ _) "F-18"

/-- C8: the service is stateless and deterministic — within any traces of
requests, positions holding equal requests receive equal responses, so
repeated calls to any endpoint with the same input return identical
results. -/
theorem c8_trace_idempotent (reqs reqs' : List Request) (i j : ℕ)
    (h : reqs[i]? = reqs'[j]?) :
    (serve reqs)[i]? = (serve reqs')[j]? := by
  simp only [serve, List.getElem?_map, h]

theorem c8_trace_idempotent_witness :
    (serve [Request.fleet "F-18", Request.root])[0]? =
    (serve [Request.fleetSummary, Request.fleet "F-18"])[1]? :=
  c8_trace_idempotent _ _ 0 1 (by decide)
